import Mathlib

/-!
# Plugin registration shim of duckdb-dart

A shallow embedding of the Windows plugin class (`windows/dart_duckdb_plugin.h`,
`windows/dart_duckdb_plugin.cpp`), of the Windows C-API entry point
(`windows/dart_duckdb_plugin_c_api.cpp`) and of the declarations exported by the Linux
header (`linux/include/dart_duckdb/dart_duckdb_plugin.h`).

The C++ code is stateful: it allocates one object and mutates a registrar owned by the
host.  The embedding passes the process state explicitly.  Objects live in a heap keyed
by address, pointers are addresses, and a call has one of three outcomes: it returns, an
exception leaves it, or its behaviour is undefined (a pointer that does not point to a
live object of the expected class is dereferenced).
-/

set_option linter.dupNamespace false

namespace DartDuckdb

/-! ## Memory model -/

/-- An address of the process. Pointers of every C++ type are addresses. -/
abbrev Addr := Nat

/-- The null pointer. -/
def nullptr : Addr := 0

/-- The handle type `FlutterDesktopPluginRegistrarRef` of the Flutter C API; its values
are not inspected. -/
abbrev FlutterDesktopPluginRegistrarRef := Nat

/-- The class `dart_duckdb::DartDuckdbPlugin` of `dart_duckdb_plugin.h`, lines 8-19:
it derives from `flutter::Plugin` and declares member functions only, no data member. -/
structure DartDuckdbPlugin where
  deriving DecidableEq, Repr

/-- Modelled from the spec: `flutter::PluginRegistrarWindows` is declared by the Flutter
host library (`flutter/plugin_registrar_windows.h`), which this repository includes but
does not contain. The spec's glossary calls it a host-owned registry object that plugins
register themselves with; it is the collection `plugins_` of owning pointers to the
plugins it holds, next to the handle `registrar_` it wraps. -/
structure PluginRegistrarWindows where
  registrar_ : FlutterDesktopPluginRegistrarRef
  plugins_ : List Addr
  deriving DecidableEq, Repr

/-- A live object of the process. -/
inductive Obj where
  | plugin (p : DartDuckdbPlugin)
  | registrar (r : PluginRegistrarWindows)
  | foreign (contents : Nat)
  deriving DecidableEq, Repr

/-- The heap: the live objects with their addresses, the most recent allocation first. -/
abbrev Heap := List (Addr × Obj)

/-- The object stored at an address, if any. -/
def Heap.lookup : Heap → Addr → Option Obj
  | [], _ => none
  | (b, o) :: t, a => if b = a then some o else Heap.lookup t a

/-- Overwrite the object stored at an address. -/
def Heap.store : Heap → Addr → Obj → Heap
  | [], _, _ => []
  | (b, x) :: t, a, o => if b = a then (b, o) :: t else (b, x) :: Heap.store t a o

/-- Release the storage at an address. -/
def Heap.erase : Heap → Addr → Heap
  | [], _ => []
  | (b, x) :: t, a => if b = a then Heap.erase t a else (b, x) :: Heap.erase t a

/-- The largest address in use (0 on the empty heap). -/
def Heap.top : Heap → Addr
  | [] => 0
  | (b, _) :: t => max b (Heap.top t)

/-- The address the allocator hands out next: above every address in use, never null. -/
def Heap.fresh (h : Heap) : Addr := Heap.top h + 1

/-- The state of the process: the heap, and the map `registrars_` of the
`flutter::PluginRegistrarManager` singleton (static storage, owned by the host). -/
structure State where
  heap : Heap
  registrars_ : List (FlutterDesktopPluginRegistrarRef × Addr)
  deriving DecidableEq, Repr

/-- Dereference a pointer: the live object it points to. The null pointer points to
no object. -/
def State.deref (s : State) (a : Addr) : Option Obj :=
  if a = nullptr then none else s.heap.lookup a

/-- The collection of plugins held by the registrar at `a`, when `a` points to a live
registrar. -/
def State.pluginsOf (s : State) (a : Addr) : Option (List Addr) :=
  match s.deref a with
  | some (Obj.registrar r) => some r.plugins_
  | _ => none

/-- The pointer `a` is a valid registrar handle: it points to a live registrar. -/
def State.validRegistrar (s : State) (a : Addr) : Prop :=
  (s.pluginsOf a).isSome = true

instance (s : State) (a : Addr) : Decidable (s.validRegistrar a) := by
  unfold State.validRegistrar; infer_instance

/-- How a call ends. -/
inductive Outcome (α : Type) where
  /-- The call returned. -/
  | ok (a : α)
  /-- An exception left the call. -/
  | raised (what : Nat)
  /-- The behaviour of the call is undefined. -/
  | undefined
  deriving DecidableEq, Repr

/-- Sequencing: the continuation runs only when the first call returned. -/
def Outcome.bind {α β : Type} : Outcome α → (α → Outcome β) → Outcome β
  | Outcome.ok a, f => f a
  | Outcome.raised e, _ => Outcome.raised e
  | Outcome.undefined, _ => Outcome.undefined

/-! ## `windows/dart_duckdb_plugin.cpp` -/

/-- The constructor `DartDuckdbPlugin::DartDuckdbPlugin() {}` (line 14): the body is
empty. -/
def DartDuckdbPlugin.DartDuckdbPlugin (_self : Addr) (s : State) : Outcome State :=
  Outcome.ok s

/-- The destructor `DartDuckdbPlugin::~DartDuckdbPlugin() {}` (line 16): the body is
empty. -/
def DartDuckdbPlugin.destructor (_self : Addr) (s : State) : Outcome State :=
  Outcome.ok s

/-- The call `std::make_unique<DartDuckdbPlugin>()` of line 10, as it runs when the free
store grants the request: storage for one object is allocated at a fresh address and the
constructor runs on it; the result is the owning pointer. The run in which the request
is refused is `make_unique_alloc false`. -/
def make_unique (s : State) : Outcome (Addr × State) :=
  let self := s.heap.fresh
  (DartDuckdbPlugin.DartDuckdbPlugin self
      { s with heap := (self, Obj.plugin {}) :: s.heap }).bind
    fun s1 => Outcome.ok (self, s1)

/-- The deleter of the owning pointer, `delete plugin`: on the null pointer nothing
happens; otherwise the destructor runs on the live plugin and its storage is released. -/
def default_delete (plugin : Addr) (s : State) : Outcome State :=
  if plugin = nullptr then Outcome.ok s
  else
    match s.deref plugin with
    | some (Obj.plugin _) =>
      (DartDuckdbPlugin.destructor plugin s).bind
        fun s1 => Outcome.ok { s1 with heap := s1.heap.erase plugin }
    | _ => Outcome.undefined

/-- Modelled from the spec: `flutter::PluginRegistrar::AddPlugin` belongs to the Flutter
host library, which this repository calls but does not contain. By the spec, after it
"the host's registrar now holds a reference to the instance": the owning pointer joins
the registrar's collection.
It is a member function, called as `registrar->AddPlugin(...)`: the behaviour is
undefined unless `this` points to a live registrar. -/
def PluginRegistrar.AddPlugin (self : Addr) (plugin : Addr) (s : State) : Outcome State :=
  match s.deref self with
  | some (Obj.registrar r) =>
    let held := Obj.registrar { r with plugins_ := plugin :: r.plugins_ }
    Outcome.ok { s with heap := s.heap.store self held }
  | _ => Outcome.undefined

/-- The static member `DartDuckdbPlugin::RegisterWithRegistrar` (lines 8-12):
`auto plugin = std::make_unique<DartDuckdbPlugin>();`
`registrar->AddPlugin(std::move(plugin));` -/
def DartDuckdbPlugin.RegisterWithRegistrar (registrar : Addr) (s : State) : Outcome State :=
  (make_unique s).bind fun (plugin, s1) =>
    PluginRegistrar.AddPlugin registrar plugin s1

/-! ## `windows/dart_duckdb_plugin_c_api.cpp` -/

/-- The host's `flutter::PluginRegistrarManager::GetInstance()->GetRegistrar<T>(ref)`: a
call into the Flutter host library that may change the state and yields a pointer to a
typed registrar. The embedding takes it as a parameter. -/
abbrev GetRegistrarFn :=
  FlutterDesktopPluginRegistrarRef → State → Outcome (Addr × State)

/-- The entry point `DartDuckdbPluginCApiRegisterWithRegistrar` (lines 7-12): the argument
`GetInstance()->GetRegistrar<PluginRegistrarWindows>(registrar)` is evaluated, then
`DartDuckdbPlugin::RegisterWithRegistrar` is called on its value. -/
def DartDuckdbPluginCApiRegisterWithRegistrar (GetRegistrar : GetRegistrarFn)
    (registrar : FlutterDesktopPluginRegistrarRef) (s : State) : Outcome State :=
  (GetRegistrar registrar s).bind fun (typed, s1) =>
    DartDuckdbPlugin.RegisterWithRegistrar typed s1

/-! ## The same code with an allocation that can fail -/

/-- The exception `std::bad_alloc`. -/
def bad_alloc : Nat := 0

/-- The allocation function `operator new`, which `std::make_unique` calls: when the free
store grants the request it hands out storage at a fresh address, and it throws
`std::bad_alloc` when it does not. Whether the request is granted is decided by the
environment of the program, not by its code: it is the argument `granted`. -/
def operator_new (granted : Bool) (s : State) : Outcome Addr :=
  if granted then Outcome.ok s.heap.fresh else Outcome.raised bad_alloc

/-- The state with one more plugin object, at the fresh address. -/
def State.allocated (s : State) : State :=
  { s with heap := (s.heap.fresh, Obj.plugin {}) :: s.heap }

/-- The call `std::make_unique<DartDuckdbPlugin>()` of line 10 with its allocation spelled
out: `operator new` is called, and on the storage it hands out the object is laid out and
the constructor runs; an exception of `operator new` leaves the call. -/
def make_unique_alloc (granted : Bool) (s : State) : Outcome (Addr × State) :=
  (operator_new granted s).bind fun self =>
    (DartDuckdbPlugin.DartDuckdbPlugin self
        { s with heap := (self, Obj.plugin {}) :: s.heap }).bind
      fun s1 => Outcome.ok (self, s1)

/-- A host implementation of `registrar->AddPlugin(plugin)`: any function of the
registrar pointer, the owning pointer and the state, with any outcome. -/
abbrev AddPluginFn := Addr → Addr → State → Outcome State

/-- The static member `DartDuckdbPlugin::RegisterWithRegistrar` (lines 8-12) over an
allocation that can fail and over any host `AddPlugin`: the two statements in sequence,
with no handler around either. -/
def DartDuckdbPlugin.RegisterWithRegistrar_alloc (granted : Bool) (AddPlugin : AddPluginFn)
    (registrar : Addr) (s : State) : Outcome State :=
  (make_unique_alloc granted s).bind fun (plugin, s1) =>
    AddPlugin registrar plugin s1

/-- The entry point `DartDuckdbPluginCApiRegisterWithRegistrar` (lines 7-12) over an
allocation that can fail and over any host `AddPlugin` and `GetRegistrar`. -/
def DartDuckdbPluginCApiRegisterWithRegistrar_alloc (granted : Bool)
    (AddPlugin : AddPluginFn) (GetRegistrar : GetRegistrarFn)
    (registrar : FlutterDesktopPluginRegistrarRef) (s : State) : Outcome State :=
  (GetRegistrar registrar s).bind fun (typed, s1) =>
    DartDuckdbPlugin.RegisterWithRegistrar_alloc granted AddPlugin typed s1

/-! ## States and functions used to state the claims -/

/-- The state `s` with one more plugin, allocated at the fresh address, whose address has
joined the collection of the registrar `r` stored at `registrar`. -/
def State.registered (s : State) (registrar : Addr) (r : PluginRegistrarWindows) : State :=
  let plugin := s.heap.fresh
  let held := Obj.registrar { r with plugins_ := plugin :: r.plugins_ }
  { s with heap := (plugin, Obj.plugin {}) :: s.heap.store registrar held }

/-- The C types that occur in the signatures of the exported functions. -/
inductive CType where
  | void
  | GType
  | FlPluginRegistrarPtr
  | FlutterDesktopPluginRegistrarRef
  deriving DecidableEq, Repr

/-- The type is a registrar handle owned by the host. -/
def CType.isRegistrarHandle : CType → Bool
  | CType.FlPluginRegistrarPtr => true
  | CType.FlutterDesktopPluginRegistrarRef => true
  | _ => false

/-- The exported functions: the two the Linux header declares under
`FLUTTER_PLUGIN_EXPORT` (lines 19 and 21-22) and the Windows C-API registration function
(`dart_duckdb_plugin_c_api.cpp`, lines 7-8). -/
inductive EntryPoint where
  | dart_duckdb_plugin_get_type
  | dart_duckdb_plugin_register_with_registrar
  | DartDuckdbPluginCApiRegisterWithRegistrar
  deriving DecidableEq, Repr

/-- The parameter types of an exported function, as declared. -/
def EntryPoint.params : EntryPoint → List CType
  | EntryPoint.dart_duckdb_plugin_get_type => []
  | EntryPoint.dart_duckdb_plugin_register_with_registrar => [CType.FlPluginRegistrarPtr]
  | EntryPoint.DartDuckdbPluginCApiRegisterWithRegistrar =>
    [CType.FlutterDesktopPluginRegistrarRef]

/-- The return type of an exported function, as declared. -/
def EntryPoint.ret : EntryPoint → CType
  | EntryPoint.dart_duckdb_plugin_get_type => CType.GType
  | EntryPoint.dart_duckdb_plugin_register_with_registrar => CType.void
  | EntryPoint.DartDuckdbPluginCApiRegisterWithRegistrar => CType.void

/-- The function takes a registrar handle as its input. -/
def EntryPoint.takesRegistrar (e : EntryPoint) : Bool :=
  match e.params with
  | [t] => t.isRegistrarHandle
  | _ => false

/-- The function returns nothing. -/
def EntryPoint.returnsVoid (e : EntryPoint) : Bool :=
  decide (e.ret = CType.void)

/-! ## Sample inputs -/

/-- A state for the examples: a registrar wrapping handle 77 at address 1, holding no
plugin, known to the manager, and an unrelated object at address 3. -/
def sampleState : State :=
  { heap := [(3, Obj.foreign 9), (1, Obj.registrar { registrar_ := 77, plugins_ := [] })],
    registrars_ := [(77, 1)] }

/-- A sample host: the manager resolves a handle to the registrar its map holds for it; a
handle it has not seen gets a new registrar, which the map holds from then on. -/
def sampleGetRegistrar : GetRegistrarFn := fun ref s =>
  match s.registrars_.lookup ref with
  | some a => Outcome.ok (a, s)
  | none =>
    let a := s.heap.fresh
    let fresh := Obj.registrar { registrar_ := ref, plugins_ := [] }
    Outcome.ok (a, { heap := (a, fresh) :: s.heap, registrars_ := (ref, a) :: s.registrars_ })

/-- A sample host whose resolution ends in the exception 7 on every handle. -/
def raisingGetRegistrar : GetRegistrarFn := fun _ _ => Outcome.raised 7

/-! ## Facts about the heap -/

theorem Heap.lookup_le_top (h : Heap) (a : Addr) (o : Obj)
    (hl : Heap.lookup h a = some o) : a ≤ Heap.top h := by
  induction h with
  | nil => simp [Heap.lookup] at hl
  | cons e t ih =>
    obtain ⟨b, x⟩ := e
    simp only [Heap.lookup] at hl
    simp only [Heap.top]
    by_cases hb : b = a
    · subst hb; exact le_max_left _ _
    · rw [if_neg hb] at hl
      exact le_trans (ih hl) (le_max_right _ _)

theorem Heap.lookup_fresh (h : Heap) : Heap.lookup h (Heap.fresh h) = none := by
  cases hl : Heap.lookup h (Heap.fresh h) with
  | none => rfl
  | some o =>
    exact absurd (Heap.lookup_le_top h _ o hl) (Nat.not_succ_le_self _)

theorem Heap.lookup_erase_self (h : Heap) (a : Addr) :
    Heap.lookup (Heap.erase h a) a = none := by
  induction h with
  | nil => rfl
  | cons e t ih =>
    obtain ⟨c, y⟩ := e
    by_cases hc : c = a
    · simp [Heap.erase, hc, ih]
    · simp [Heap.erase, Heap.lookup, hc, ih]

theorem Heap.lookup_erase_ne (h : Heap) (a b : Addr) (hab : a ≠ b) :
    Heap.lookup (Heap.erase h a) b = Heap.lookup h b := by
  induction h with
  | nil => rfl
  | cons e t ih =>
    obtain ⟨c, y⟩ := e
    by_cases hc : c = a
    · subst hc
      simp [Heap.erase, Heap.lookup, hab, ih]
    · by_cases hcb : c = b
      · subst hcb
        simp [Heap.erase, Heap.lookup, hc]
      · simp [Heap.erase, Heap.lookup, hc, hcb, ih]

theorem Heap.erase_of_lookup_none (h : Heap) (a : Addr)
    (hl : Heap.lookup h a = none) : Heap.erase h a = h := by
  induction h with
  | nil => rfl
  | cons e t ih =>
    obtain ⟨c, y⟩ := e
    by_cases hc : c = a
    · subst hc
      simp [Heap.lookup] at hl
    · simp only [Heap.lookup, if_neg hc] at hl
      simp [Heap.erase, hc, ih hl]

theorem Heap.fresh_ne_nullptr (h : Heap) : Heap.fresh h ≠ nullptr := by
  exact Nat.succ_ne_zero _

/-- The allocator never hands out the address of a live object. -/
theorem State.deref_fresh (s : State) : s.deref s.heap.fresh = none := by
  unfold State.deref
  rw [if_neg (Heap.fresh_ne_nullptr _)]
  exact Heap.lookup_fresh _

theorem State.deref_nullptr (s : State) : s.deref nullptr = none := by
  simp [State.deref]

/-- A pointer to a live object is neither null nor the address handed out next. -/
theorem State.ne_fresh_of_deref (s : State) (a : Addr) (o : Obj)
    (h : s.deref a = some o) : a ≠ s.heap.fresh := by
  intro ha
  rw [ha, State.deref_fresh] at h
  cases h

theorem State.validRegistrar_iff (s : State) (a : Addr) :
    s.validRegistrar a ↔ ∃ r, s.deref a = some (Obj.registrar r) := by
  unfold State.validRegistrar State.pluginsOf
  constructor
  · intro h
    split at h
    · rename_i r hr; exact ⟨r, hr⟩
    · simp at h
  · rintro ⟨r, hr⟩
    simp [hr]

/-! ## What one registration does -/

/-- A registration on the live registrar `r` at `registrar` returns and leaves the state
`s.registered registrar r`. -/
theorem RegisterWithRegistrar_eq (s : State) (registrar : Addr) (r : PluginRegistrarWindows)
    (hreg : s.deref registrar = some (Obj.registrar r)) :
    DartDuckdbPlugin.RegisterWithRegistrar registrar s =
      Outcome.ok (s.registered registrar r) := by
  have hne : s.heap.fresh ≠ registrar := (State.ne_fresh_of_deref s registrar _ hreg).symm
  have hnull : registrar ≠ nullptr := by
    intro h0
    rw [h0, State.deref_nullptr] at hreg
    cases hreg
  have hlook : s.heap.lookup registrar = some (Obj.registrar r) := by
    simpa [State.deref, hnull] using hreg
  simp [DartDuckdbPlugin.RegisterWithRegistrar, make_unique, DartDuckdbPlugin.DartDuckdbPlugin,
    Outcome.bind, PluginRegistrar.AddPlugin, State.deref, hnull, Heap.lookup, hne, hlook,
    Heap.store, State.registered]

theorem State.ne_nullptr_of_deref (s : State) (a : Addr) (o : Obj)
    (h : s.deref a = some o) : a ≠ nullptr := by
  intro h0
  rw [h0, State.deref_nullptr] at h
  cases h

/-- C3 as stated fails at `dart_duckdb_plugin_get_type`, which the Linux header exports:
it takes no registrar handle (it has no parameter at all) and its return type is `GType`,
not `void`. So not every exported function takes a registrar handle and returns
nothing. -/
theorem get_type_is_not_registrar_to_void :
    EntryPoint.dart_duckdb_plugin_get_type.takesRegistrar = false ∧
    EntryPoint.dart_duckdb_plugin_get_type.returnsVoid = false ∧
    ¬ ∀ e : EntryPoint, e.takesRegistrar = true ∧ e.returnsVoid = true := by
  refine ⟨by decide, by decide, ?_⟩
  intro h
  exact absurd (h EntryPoint.dart_duckdb_plugin_get_type).1 (by decide)

/-- C3, amended: every exported function other than the type query
`dart_duckdb_plugin_get_type` takes exactly one argument, a registrar handle owned by
the host, and returns nothing; the type query takes no argument and returns a `GType`. -/
theorem registration_entry_points_registrar_to_void (e : EntryPoint)
    (he : e ≠ EntryPoint.dart_duckdb_plugin_get_type) :
    (e.takesRegistrar = true ∧ e.returnsVoid = true ∧ e.params.length = 1) ∧
    EntryPoint.dart_duckdb_plugin_get_type.params = [] ∧
    EntryPoint.dart_duckdb_plugin_get_type.ret = CType.GType := by
  refine ⟨?_, rfl, rfl⟩
  cases e with
  | dart_duckdb_plugin_get_type => exact absurd rfl he
  | dart_duckdb_plugin_register_with_registrar => decide
  | DartDuckdbPluginCApiRegisterWithRegistrar => decide

/-- The amended C3 at the Windows C-API registration function. -/
theorem registration_entry_points_registrar_to_void_witness :
    EntryPoint.DartDuckdbPluginCApiRegisterWithRegistrar ≠
        EntryPoint.dart_duckdb_plugin_get_type ∧
      EntryPoint.DartDuckdbPluginCApiRegisterWithRegistrar.takesRegistrar = true ∧
      EntryPoint.DartDuckdbPluginCApiRegisterWithRegistrar.returnsVoid = true ∧
      EntryPoint.DartDuckdbPluginCApiRegisterWithRegistrar.params.length = 1 :=
  ⟨by decide, (registration_entry_points_registrar_to_void
    EntryPoint.DartDuckdbPluginCApiRegisterWithRegistrar (by decide)).1⟩

/-- C4 as stated fails. On the sample state the registrar at address 1 is valid, and yet
the registration does not complete when the allocation made by `std::make_unique` is
refused: `std::bad_alloc` leaves `RegisterWithRegistrar`, and it leaves the C-API entry
point called with the handle 77, which the host resolves to that registrar. So
registration on a valid registrar does not always complete. -/
theorem registration_fails_when_allocation_fails :
    sampleState.validRegistrar 1 ∧
    DartDuckdbPlugin.RegisterWithRegistrar_alloc false PluginRegistrar.AddPlugin 1
      sampleState = Outcome.raised bad_alloc ∧
    sampleGetRegistrar 77 sampleState = Outcome.ok (1, sampleState) ∧
    DartDuckdbPluginCApiRegisterWithRegistrar_alloc false PluginRegistrar.AddPlugin
      sampleGetRegistrar 77 sampleState = Outcome.raised bad_alloc ∧
    ¬ ∀ (granted : Bool) (s : State) (registrar : Addr), s.validRegistrar registrar →
      ∃ s', DartDuckdbPlugin.RegisterWithRegistrar_alloc granted PluginRegistrar.AddPlugin
        registrar s = Outcome.ok s' := by
  refine ⟨by decide, by decide, by decide, by decide, ?_⟩
  intro h
  obtain ⟨s', hs'⟩ := h false sampleState 1 (by decide)
  have hr : DartDuckdbPlugin.RegisterWithRegistrar_alloc false PluginRegistrar.AddPlugin 1
      sampleState = Outcome.raised bad_alloc := by decide
  rw [hr] at hs'
  cases hs'

/-- C4, amended: registration on a valid registrar has no failure mode of its own, and
fails only through the calls it makes. The constructor returns on every object and
state. When the allocation of `std::make_unique` is granted, `RegisterWithRegistrar`
returns, with the state of the run in which allocation cannot fail; when it is refused,
`std::bad_alloc` leaves the call, and with the registrar's `AddPlugin` no other exception
ever does. Over any host `AddPlugin` the call is exactly that one `AddPlugin` call on the
new plugin, so an exception leaves it only as `std::bad_alloc` of the refused allocation
or as the exception that left `AddPlugin`. The C-API entry point behaves the same on
every handle the host resolves to the registrar, and passes on an exception of the
host's resolution. -/
theorem registration_fails_only_through_its_calls (s : State) (registrar : Addr)
    (hreg : s.validRegistrar registrar) :
    (∀ (self : Addr) (s0 : State),
      DartDuckdbPlugin.DartDuckdbPlugin self s0 = Outcome.ok s0) ∧
    (DartDuckdbPlugin.RegisterWithRegistrar_alloc true PluginRegistrar.AddPlugin registrar s =
        DartDuckdbPlugin.RegisterWithRegistrar registrar s ∧
      ∃ s', DartDuckdbPlugin.RegisterWithRegistrar_alloc true PluginRegistrar.AddPlugin
        registrar s = Outcome.ok s') ∧
    (∀ A : AddPluginFn,
      DartDuckdbPlugin.RegisterWithRegistrar_alloc false A registrar s =
        Outcome.raised bad_alloc) ∧
    (∀ (granted : Bool) (e : Nat),
      DartDuckdbPlugin.RegisterWithRegistrar_alloc granted PluginRegistrar.AddPlugin
        registrar s = Outcome.raised e → granted = false ∧ e = bad_alloc) ∧
    (∀ A : AddPluginFn,
      DartDuckdbPlugin.RegisterWithRegistrar_alloc true A registrar s =
        A registrar s.heap.fresh s.allocated) ∧
    (∀ (A : AddPluginFn) (granted : Bool) (e : Nat),
      DartDuckdbPlugin.RegisterWithRegistrar_alloc granted A registrar s =
        Outcome.raised e →
      (granted = false ∧ e = bad_alloc) ∨
        (granted = true ∧ A registrar s.heap.fresh s.allocated = Outcome.raised e)) ∧
    (∀ (GetRegistrar : GetRegistrarFn) (ref : FlutterDesktopPluginRegistrarRef) (s0 : State),
      GetRegistrar ref s0 = Outcome.ok (registrar, s) →
      (∃ s', DartDuckdbPluginCApiRegisterWithRegistrar_alloc true PluginRegistrar.AddPlugin
        GetRegistrar ref s0 = Outcome.ok s') ∧
      DartDuckdbPluginCApiRegisterWithRegistrar_alloc true PluginRegistrar.AddPlugin
        GetRegistrar ref s0 = DartDuckdbPluginCApiRegisterWithRegistrar GetRegistrar ref s0 ∧
      (∀ A : AddPluginFn,
        DartDuckdbPluginCApiRegisterWithRegistrar_alloc false A GetRegistrar ref s0 =
          Outcome.raised bad_alloc) ∧
      (∀ (granted : Bool) (e : Nat),
        DartDuckdbPluginCApiRegisterWithRegistrar_alloc granted PluginRegistrar.AddPlugin
          GetRegistrar ref s0 = Outcome.raised e → granted = false ∧ e = bad_alloc)) ∧
    (∀ (GetRegistrar : GetRegistrarFn) (ref : FlutterDesktopPluginRegistrarRef) (s0 : State)
      (granted : Bool) (A : AddPluginFn) (e : Nat),
      GetRegistrar ref s0 = Outcome.raised e →
      DartDuckdbPluginCApiRegisterWithRegistrar_alloc granted A GetRegistrar ref s0 =
        Outcome.raised e) := by
  obtain ⟨r, hr⟩ := (State.validRegistrar_iff s registrar).1 hreg
  have hok := RegisterWithRegistrar_eq s registrar r hr
  have hrun : ∀ A : AddPluginFn,
      DartDuckdbPlugin.RegisterWithRegistrar_alloc true A registrar s =
        A registrar s.heap.fresh s.allocated := by
    intro A
    simp [DartDuckdbPlugin.RegisterWithRegistrar_alloc, make_unique_alloc, operator_new,
      DartDuckdbPlugin.DartDuckdbPlugin, Outcome.bind, State.allocated]
  have hfail : ∀ A : AddPluginFn,
      DartDuckdbPlugin.RegisterWithRegistrar_alloc false A registrar s =
        Outcome.raised bad_alloc := by
    intro A
    simp [DartDuckdbPlugin.RegisterWithRegistrar_alloc, make_unique_alloc, operator_new,
      Outcome.bind]
  have hsame : DartDuckdbPlugin.RegisterWithRegistrar_alloc true PluginRegistrar.AddPlugin
      registrar s = DartDuckdbPlugin.RegisterWithRegistrar registrar s := by
    rw [hrun]
    simp [DartDuckdbPlugin.RegisterWithRegistrar, make_unique,
      DartDuckdbPlugin.DartDuckdbPlugin, Outcome.bind, State.allocated]
  have honly : ∀ (granted : Bool) (e : Nat),
      DartDuckdbPlugin.RegisterWithRegistrar_alloc granted PluginRegistrar.AddPlugin
        registrar s = Outcome.raised e → granted = false ∧ e = bad_alloc := by
    intro granted e he
    cases granted with
    | false =>
      rw [hfail] at he
      cases he
      exact ⟨rfl, rfl⟩
    | true =>
      rw [hsame, hok] at he
      cases he
  refine ⟨fun _ _ => rfl, ⟨hsame, _, hsame.trans hok⟩, hfail, honly, hrun, ?_, ?_, ?_⟩
  · intro A granted e he
    cases granted with
    | false =>
      rw [hfail] at he
      cases he
      exact Or.inl ⟨rfl, rfl⟩
    | true =>
      rw [hrun] at he
      exact Or.inr ⟨rfl, he⟩
  · intro G ref s0 hres
    have hcapi : ∀ (granted : Bool) (A : AddPluginFn),
        DartDuckdbPluginCApiRegisterWithRegistrar_alloc granted A G ref s0 =
          DartDuckdbPlugin.RegisterWithRegistrar_alloc granted A registrar s := by
      intro granted A
      simp [DartDuckdbPluginCApiRegisterWithRegistrar_alloc, hres, Outcome.bind]
    have hcapi0 : DartDuckdbPluginCApiRegisterWithRegistrar G ref s0 =
        DartDuckdbPlugin.RegisterWithRegistrar registrar s := by
      simp [DartDuckdbPluginCApiRegisterWithRegistrar, hres, Outcome.bind]
    refine ⟨⟨_, (hcapi true _).trans (hsame.trans hok)⟩, ?_, ?_, ?_⟩
    · rw [hcapi, hcapi0, hsame]
    · intro A
      rw [hcapi, hfail]
    · intro granted e he
      rw [hcapi] at he
      exact honly granted e he
  · intro G ref s0 granted A e hres
    simp [DartDuckdbPluginCApiRegisterWithRegistrar_alloc, hres, Outcome.bind]

/-- The amended C4 on the sample state: with the allocation granted the registration on
the registrar at address 1 returns, directly and through the C-API entry point with the
sample host and handle 77; and the exception 7 of a host whose resolution raises it
leaves the C-API entry point. -/
theorem registration_fails_only_through_its_calls_witness :
    sampleState.validRegistrar 1 ∧
    sampleGetRegistrar 77 sampleState = Outcome.ok (1, sampleState) ∧
    (∃ s', DartDuckdbPlugin.RegisterWithRegistrar_alloc true PluginRegistrar.AddPlugin 1
      sampleState = Outcome.ok s') ∧
    (∃ s', DartDuckdbPluginCApiRegisterWithRegistrar_alloc true PluginRegistrar.AddPlugin
      sampleGetRegistrar 77 sampleState = Outcome.ok s') ∧
    DartDuckdbPluginCApiRegisterWithRegistrar_alloc true PluginRegistrar.AddPlugin
      raisingGetRegistrar 77 sampleState = Outcome.raised 7 :=
  ⟨by decide, by decide,
    (registration_fails_only_through_its_calls sampleState 1 (by decide)).2.1.2,
    ((registration_fails_only_through_its_calls sampleState 1 (by decide)).2.2.2.2.2.2.1
      sampleGetRegistrar 77 sampleState (by decide)).1,
    (registration_fails_only_through_its_calls sampleState 1 (by decide)).2.2.2.2.2.2.2
      raisingGetRegistrar 77 sampleState true PluginRegistrar.AddPlugin 7 rfl⟩

/-- C7: destroying a plugin instance never faults and releases nothing. On every live
instance the destructor returns and leaves the state as it is; the instance has no
member that could hold a resource (every value of the class equals it); and deleting the
instance returns, raises nothing, and changes the state only by the instance itself
being gone. An instance constructed and at once deleted leaves the state exactly as it
was before the construction. -/
theorem destruction_never_faults (s : State) (plugin : Addr) (p : DartDuckdbPlugin)
    (hlive : s.deref plugin = some (Obj.plugin p)) :
    DartDuckdbPlugin.destructor plugin s = Outcome.ok s ∧
    (∀ q : DartDuckdbPlugin, q = p) ∧
    (∃ s', default_delete plugin s = Outcome.ok s' ∧
      s'.registrars_ = s.registrars_ ∧
      s'.deref plugin = none ∧
      ∀ a, a ≠ plugin → s'.deref a = s.deref a) ∧
    (∀ e, DartDuckdbPlugin.destructor plugin s ≠ Outcome.raised e ∧
      default_delete plugin s ≠ Outcome.raised e) ∧
    (∀ s0 : State,
      (make_unique s0).bind (fun x => default_delete x.1 x.2) = Outcome.ok s0) := by
  have hnn : plugin ≠ nullptr := State.ne_nullptr_of_deref s plugin _ hlive
  have hdel : default_delete plugin s = Outcome.ok { s with heap := s.heap.erase plugin } := by
    simp [default_delete, hnn, hlive, DartDuckdbPlugin.destructor, Outcome.bind]
  refine ⟨rfl, fun _ => rfl, ⟨_, hdel, rfl, ?_, ?_⟩, ?_, ?_⟩
  · simp [State.deref, Heap.lookup_erase_self]
  · intro a ha
    simp [State.deref, Heap.lookup_erase_ne _ _ _ (Ne.symm ha)]
  · intro e
    constructor
    · intro h
      cases h
    · intro h
      rw [hdel] at h
      cases h
  · intro s0
    have hnone : s0.heap.lookup s0.heap.fresh = none := Heap.lookup_fresh _
    simp [make_unique, DartDuckdbPlugin.DartDuckdbPlugin, Outcome.bind, default_delete,
      State.deref, Heap.fresh_ne_nullptr, Heap.lookup, DartDuckdbPlugin.destructor,
      Heap.erase, Heap.erase_of_lookup_none _ _ hnone]

/-- C7 on the state the sample registration leaves: the plugin at address 4 is live,
its destructor leaves the state unchanged, and deleting it returns. -/
theorem destruction_never_faults_witness :
    (sampleState.registered 1 { registrar_ := 77, plugins_ := [] }).deref 4 =
      some (Obj.plugin {}) ∧
    DartDuckdbPlugin.destructor 4
        (sampleState.registered 1 { registrar_ := 77, plugins_ := [] }) =
      Outcome.ok (sampleState.registered 1 { registrar_ := 77, plugins_ := [] }) ∧
    (∃ s', default_delete 4
        (sampleState.registered 1 { registrar_ := 77, plugins_ := [] }) = Outcome.ok s' ∧
      s'.registrars_ =
        (sampleState.registered 1 { registrar_ := 77, plugins_ := [] }).registrars_ ∧
      s'.deref 4 = none ∧
      ∀ a, a ≠ 4 → s'.deref a =
        (sampleState.registered 1 { registrar_ := 77, plugins_ := [] }).deref a) :=
  ⟨by decide,
    (destruction_never_faults _ 4 {} (by decide)).1,
    (destruction_never_faults
      (sampleState.registered 1 { registrar_ := 77, plugins_ := [] }) 4 {}
      (by decide)).2.2.1⟩

end DartDuckdb
